import Mathlib

/-
Shallow embedding of src/src/script.js: the PlanetConfig constructor, the
SolarSystem registry (createPlanet, updatePlanets) and the per-frame tick.
JavaScript numbers are modelled as reals; the logical-or defaulting idiom
`params.x || d` is modelled faithfully: a missing field (undefined) and a
supplied falsy value (0 for numbers, false for booleans) both fall back to d.
Colors are modelled as naturals (0 = black is falsy in JavaScript).
-/

namespace SolarSpec

noncomputable section

/-- The partial parameter object passed to the PlanetConfig constructor:
each field may be absent (undefined). -/
structure PlanetParams where
  radius : Option ℝ
  color : Option ℕ
  atmosphereColor : Option ℕ
  atmosphereThickness : Option ℝ
  atmosphereOpacity : Option ℝ
  orbitRadius : Option ℝ
  rotationSpeed : Option ℝ
  orbitSpeed : Option ℝ
  hasRings : Option Bool
  ringColor : Option ℕ
  ringInnerRadius : Option ℝ
  ringOuterRadius : Option ℝ

/-- The parameter object with every field absent. -/
def emptyParams : PlanetParams :=
  ⟨none, none, none, none, none, none, none, none, none, none, none, none⟩

/-- JavaScript `x || d` for an optional numeric field: undefined and the
falsy number 0 both yield the default d. -/
def jsOrR (x : Option ℝ) (d : ℝ) : ℝ :=
  match x with
  | none => d
  | some v => if v = 0 then d else v

/-- JavaScript `x || d` for an optional color (number) field. -/
def jsOrN (x : Option ℕ) (d : ℕ) : ℕ :=
  match x with
  | none => d
  | some v => if v = 0 then d else v

/-- JavaScript `x || d` for an optional boolean field: undefined and false
both yield the default d. -/
def jsOrB (x : Option Bool) (d : Bool) : Bool :=
  match x with
  | none => d
  | some v => if v then v else d

/-- The fully populated record built by the PlanetConfig constructor
(script.js lines 41-54). ringInnerRadius and ringOuterRadius are copied
from the parameters with no defaulting, hence remain optional. -/
structure PlanetConfig where
  radius : ℝ
  color : ℕ
  atmosphereColor : ℕ
  atmosphereThickness : ℝ
  atmosphereOpacity : ℝ
  orbitRadius : ℝ
  rotationSpeed : ℝ
  orbitSpeed : ℝ
  hasRings : Bool
  ringColor : ℕ
  ringInnerRadius : Option ℝ
  ringOuterRadius : Option ℝ

/-- The PlanetConfig constructor: this.x = params.x || default for each
defaulted field; atmosphereColor chains params.atmosphereColor ||
params.color || 0xffffff; ringInnerRadius and ringOuterRadius are assigned
directly with no default. -/
def PlanetConfig.ofParams (p : PlanetParams) : PlanetConfig where
  radius := jsOrR p.radius 1
  color := jsOrN p.color 0xffffff
  atmosphereColor := jsOrN p.atmosphereColor (jsOrN p.color 0xffffff)
  atmosphereThickness := jsOrR p.atmosphereThickness 0.1
  atmosphereOpacity := jsOrR p.atmosphereOpacity 0.2
  orbitRadius := jsOrR p.orbitRadius 0
  rotationSpeed := jsOrR p.rotationSpeed 0.005
  orbitSpeed := jsOrR p.orbitSpeed 0.001
  hasRings := jsOrB p.hasRings false
  ringColor := jsOrN p.ringColor 0xffffff
  ringInnerRadius := p.ringInnerRadius
  ringOuterRadius := p.ringOuterRadius

/-- A 3D position (THREE.Object3D position). A fresh group starts at the
origin. -/
@[ext]
structure Vec3 where
  x : ℝ
  y : ℝ
  z : ℝ

/-- Ring geometry as built by createPlanet: the inner and outer radii are
taken from the config as-is, so they may be absent (undefined). -/
structure RingGeom where
  innerRadius : Option ℝ
  outerRadius : Option ℝ
  color : ℕ

/-- One registry entry: the config plus the live transform state of the
group (position) and of the planet mesh (rotation.y), together with the
geometry decisions createPlanet made (atmosphere shell present, rings). -/
structure PlanetEntry where
  config : PlanetConfig
  position : Vec3
  meshRotationY : ℝ
  hasAtmosphere : Bool
  rings : Option RingGeom

/-- Lookup in a JavaScript Map modelled as an association list: the value
at the first matching key, if any. -/
def mapGet {α : Type} : List (String × α) → String → Option α
  | [], _ => none
  | q :: rest, k => if q.1 = k then some q.2 else mapGet rest k

/-- JavaScript Map.set: replace the value at an existing key in place,
otherwise append a new entry at the end. -/
def mapSet {α : Type} : List (String × α) → String → α → List (String × α)
  | [], k, v => [(k, v)]
  | q :: rest, k, v => if q.1 = k then (k, v) :: rest else q :: mapSet rest k v

/-- Number of entries stored under a given key. -/
def countKey {α : Type} (m : List (String × α)) (k : String) : ℕ :=
  (m.filter (fun q => q.1 = k)).length

/-- The SolarSystem state the claims are about: the named planet registry
(this.planets) and the rotation.y of the sun mesh. -/
structure SolarSystem where
  planets : List (String × PlanetEntry)
  sunRotationY : ℝ

/-- The state right after the SolarSystem constructor: empty registry, sun
mesh at rotation 0. -/
def SolarSystem.init : SolarSystem := ⟨[], 0⟩

/-- The entry createPlanet builds for a config: a fresh group at the
origin, mesh rotation 0, an atmosphere shell iff config.atmosphereOpacity
is greater than 0, and ring geometry iff config.hasRings, built directly
from the possibly-absent ring radii. -/
def mkEntry (config : PlanetConfig) : PlanetEntry where
  config := config
  position := ⟨0, 0, 0⟩
  meshRotationY := 0
  hasAtmosphere := decide (0 < config.atmosphereOpacity)
  rings :=
    if config.hasRings then
      some ⟨config.ringInnerRadius, config.ringOuterRadius, config.ringColor⟩
    else none

/-- SolarSystem.createPlanet (script.js lines 114-170): build the entry and
store it under the name via Map.set. -/
def SolarSystem.createPlanet (s : SolarSystem) (name : String)
    (config : PlanetConfig) : SolarSystem :=
  { s with planets := mapSet s.planets name (mkEntry config) }

/-- The per-entry body of updatePlanets (script.js lines 173-181): the mesh
rotation accumulates by rotationSpeed, the angle is recomputed from
absolute time, and the group x and z are set from it; y is never written. -/
def updateEntry (time : ℝ) (p : PlanetEntry) : PlanetEntry :=
  { p with
    meshRotationY := p.meshRotationY + p.config.rotationSpeed
    position :=
      ⟨Real.cos (time * p.config.orbitSpeed) * p.config.orbitRadius,
       p.position.y,
       Real.sin (time * p.config.orbitSpeed) * p.config.orbitRadius⟩ }

/-- SolarSystem.updatePlanets (script.js lines 172-185): update every
registry entry, then advance the sun rotation by the fixed constant
0.001. -/
def SolarSystem.updatePlanets (s : SolarSystem) (time : ℝ) : SolarSystem :=
  { planets := s.planets.map (fun q => (q.1, updateEntry time q.2))
    sunRotationY := s.sunRotationY + 0.001 }

/-- The two externally adjustable GUI parameters (script.js lines 302-305). -/
structure Parameters where
  autoRotate : Bool
  rotationSpeed : ℝ

/-- The solar-system part of the per-frame tick (script.js lines 313-317):
when autoRotate holds, scale the clock reading and call updatePlanets;
otherwise leave the system untouched. -/
def tick (prm : Parameters) (now : ℝ) (s : SolarSystem) : SolarSystem :=
  if prm.autoRotate then s.updatePlanets (now * 0.001 * prm.rotationSpeed) else s

/-- Position of the registered body of a given name, if any. -/
def positionAt (s : SolarSystem) (k : String) : Option Vec3 :=
  (mapGet s.planets k).map PlanetEntry.position

/-- Mesh rotation of the registered body of a given name, if any. -/
def rotationYAt (s : SolarSystem) (k : String) : Option ℝ :=
  (mapGet s.planets k).map PlanetEntry.meshRotationY

/-- Config of the registered body of a given name, if any. -/
def configAt (s : SolarSystem) (k : String) : Option PlanetConfig :=
  (mapGet s.planets k).map PlanetEntry.config

/-- Whether the registered body of a given name carries an atmosphere
shell, if the body exists. -/
def hasAtmosphereAt (s : SolarSystem) (k : String) : Option Bool :=
  (mapGet s.planets k).map PlanetEntry.hasAtmosphere

/-- Ring geometry of the registered body of a given name, if the body
exists. -/
def ringsAt (s : SolarSystem) (k : String) : Option (Option RingGeom) :=
  (mapGet s.planets k).map PlanetEntry.rings

theorem mapGet_mapSet_self {α : Type} (m : List (String × α)) (k : String)
    (v : α) : mapGet (mapSet m k v) k = some v := by
  induction m with
  | nil => simp [mapGet, mapSet]
  | cons q rest ih =>
      by_cases h : q.1 = k
      · simp [mapSet, h, mapGet]
      · simp [mapSet, h, mapGet, ih]

theorem mapGet_map_snd {α β : Type} (f : α → β) (m : List (String × α))
    (k : String) :
    mapGet (m.map (fun q => (q.1, f q.2))) k = (mapGet m k).map f := by
  induction m with
  | nil => simp [mapGet]
  | cons q rest ih =>
      by_cases h : q.1 = k
      · simp [mapGet, h]
      · simp [mapGet, h, ih]

theorem countKey_mapSet {α : Type} (m : List (String × α)) (k : String)
    (v : α) : countKey (mapSet m k v) k = max 1 (countKey m k) := by
  induction m with
  | nil => simp [countKey, mapSet]
  | cons q rest ih =>
      by_cases h : q.1 = k
      · simp [mapSet, h, countKey, List.filter]
      · simp only [mapSet, h, if_false, countKey, List.filter_cons] at ih ⊢
        simpa [h] using ih

theorem mapGet_updatePlanets (s : SolarSystem) (t : ℝ) (k : String) :
    mapGet (s.updatePlanets t).planets k = (mapGet s.planets k).map (updateEntry t) := by
  simp [SolarSystem.updatePlanets, mapGet_map_snd]

theorem jsOrR_some_of_ne (v d : ℝ) (h : v ≠ 0) : jsOrR (some v) d = v := by
  simp [jsOrR, h]

theorem jsOrR_some_zero (d : ℝ) : jsOrR (some 0) d = d := by
  simp [jsOrR]

theorem jsOrN_some_of_ne (v d : ℕ) (h : v ≠ 0) : jsOrN (some v) d = v := by
  simp [jsOrN, h]

theorem jsOrN_some_zero (d : ℕ) : jsOrN (some 0) d = d := by
  simp [jsOrN]

theorem jsOrB_some (b d : Bool) : jsOrB (some b) d = (b || d) := by
  cases b <;> simp [jsOrB]

/-- The parameters of the earth entry of the configuration table
(script.js lines 207-215). -/
def earthParams : PlanetParams :=
  { emptyParams with
    radius := some 1.4
    color := some 0x2233ff
    atmosphereColor := some 0x4477ff
    atmosphereOpacity := some 0.2
    orbitRadius := some 45
    orbitSpeed := some 0.006
    rotationSpeed := some 0.005 }

/-- The earth config of the configuration table. -/
def earthCfg : PlanetConfig := PlanetConfig.ofParams earthParams

/-- A system holding only the earth entry. -/
def earthSys : SolarSystem := SolarSystem.init.createPlanet "earth" earthCfg

/-- Claim C7: every call to updatePlanets advances the sun rotation by the
fixed constant 0.001, independently of the time argument and of the
registry contents (including the empty registry). -/
theorem updatePlanets_sun_constant (s : SolarSystem) (t : ℝ) :
    (s.updatePlanets t).sunRotationY = s.sunRotationY + 0.001 := rfl

/-- Claim C1: after updatePlanets with time t, every registered body whose
group sat on the orbital plane (y = 0, as every body created by
createPlanet does) is at x = R * cos(S * t), z = R * sin(S * t), y = 0 for
its config orbitRadius R and orbitSpeed S; in particular a body with
orbitRadius 0 is at the origin. -/
theorem updatePlanets_position (s : SolarSystem) (t : ℝ) (k : String)
    (p : PlanetEntry) (hp : mapGet s.planets k = some p)
    (hy : p.position.y = 0) :
    positionAt (s.updatePlanets t) k =
      some ⟨p.config.orbitRadius * Real.cos (p.config.orbitSpeed * t), 0,
            p.config.orbitRadius * Real.sin (p.config.orbitSpeed * t)⟩ ∧
    (p.config.orbitRadius = 0 →
      positionAt (s.updatePlanets t) k = some ⟨0, 0, 0⟩) := by
  have h1 : positionAt (s.updatePlanets t) k = some (updateEntry t p).position := by
    simp [positionAt, mapGet_updatePlanets, hp]
  have harg : t * p.config.orbitSpeed = p.config.orbitSpeed * t := mul_comm _ _
  have h2 : positionAt (s.updatePlanets t) k =
      some ⟨p.config.orbitRadius * Real.cos (p.config.orbitSpeed * t), 0,
            p.config.orbitRadius * Real.sin (p.config.orbitSpeed * t)⟩ := by
    rw [h1]
    refine congrArg some ?_
    apply Vec3.ext
    · show Real.cos (t * p.config.orbitSpeed) * p.config.orbitRadius = _
      rw [harg, mul_comm]
    · exact hy
    · show Real.sin (t * p.config.orbitSpeed) * p.config.orbitRadius = _
      rw [harg, mul_comm]
  refine ⟨h2, fun h0 => ?_⟩
  rw [h2, h0]
  simp

/-- Witness for C1 at a concrete input: the earth entry at time 0. -/
theorem updatePlanets_position_witness :
    positionAt (earthSys.updatePlanets 0) "earth" =
      some ⟨earthCfg.orbitRadius * Real.cos (earthCfg.orbitSpeed * 0), 0,
            earthCfg.orbitRadius * Real.sin (earthCfg.orbitSpeed * 0)⟩ :=
  (updatePlanets_position earthSys 0 "earth" (mkEntry earthCfg)
    (mapGet_mapSet_self _ _ _) rfl).1

theorem foldl_updateEntry_rotationY (ts : List ℝ) (p : PlanetEntry) :
    (ts.foldl (fun e u => updateEntry u e) p).meshRotationY =
      p.meshRotationY + ts.length * p.config.rotationSpeed := by
  induction ts generalizing p with
  | nil => simp
  | cons u rest ih =>
      rw [List.foldl_cons, ih]
      simp only [updateEntry, List.length_cons]
      push_cast
      ring

theorem mapGet_foldl_updatePlanets (ts : List ℝ) (s : SolarSystem)
    (k : String) :
    mapGet (ts.foldl SolarSystem.updatePlanets s).planets k =
      (mapGet s.planets k).map (fun p => ts.foldl (fun e u => updateEntry u e) p) := by
  induction ts generalizing s with
  | nil => simp
  | cons u rest ih =>
      rw [List.foldl_cons, ih, mapGet_updatePlanets]
      cases mapGet s.planets k <;> simp

/-- Claim C3: recomputing with the same time twice leaves the position
where one call put it, while each of a sequence of updatePlanets calls
adds rotationSpeed to the mesh rotation, so N calls advance it by exactly
N times rotationSpeed. -/
theorem updatePlanets_idem_pos_accum_rot (s : SolarSystem) (t : ℝ)
    (ts : List ℝ) (k : String) (p : PlanetEntry)
    (hp : mapGet s.planets k = some p) :
    positionAt ((s.updatePlanets t).updatePlanets t) k =
      positionAt (s.updatePlanets t) k ∧
    rotationYAt (ts.foldl SolarSystem.updatePlanets s) k =
      some (p.meshRotationY + ts.length * p.config.rotationSpeed) := by
  constructor
  · simp [positionAt, mapGet_updatePlanets, hp, updateEntry]
  · simp [rotationYAt, mapGet_foldl_updatePlanets, hp, foldl_updateEntry_rotationY]

/-- Parameter object supplying only atmosphereOpacity = 0. -/
def paramsOpacity0 : PlanetParams :=
  { emptyParams with atmosphereOpacity := some 0 }

/-- Parameter object supplying only radius = 2. -/
def paramsRadius2 : PlanetParams :=
  { emptyParams with radius := some 2 }

/-- Parameter object supplying only color = 0 (black, falsy in JS). -/
def paramsBlack : PlanetParams :=
  { emptyParams with color := some 0 }

/-- Parameter object supplying only color = 0x2233ff. -/
def paramsBlue : PlanetParams :=
  { emptyParams with color := some 0x2233ff }

/-- Parameter object supplying only atmosphereOpacity = -1. -/
def paramsOpacityNeg : PlanetParams :=
  { emptyParams with atmosphereOpacity := some (-1) }

/-- Parameter object supplying only hasRings = true. -/
def paramsRingsOnly : PlanetParams :=
  { emptyParams with hasRings := some true }

/-- Counterexample to C2 as stated: the field atmosphereOpacity is
supplied with the value 0, yet the constructed config does not keep the
supplied value; the logical-or defaulting replaces the falsy 0 with the
default 0.2. -/
theorem planetConfig_supplied_zero_not_kept :
    paramsOpacity0.atmosphereOpacity = some 0 ∧
    (PlanetConfig.ofParams paramsOpacity0).atmosphereOpacity = 0.2 ∧
    (0.2 : ℝ) ≠ 0 := by
  refine ⟨rfl, ?_, by norm_num⟩
  show jsOrR (some 0) 0.2 = 0.2
  exact jsOrR_some_zero _

/-- Claim C2 amended: every omitted field takes its default, and every
supplied field keeps the supplied value provided that value is truthy in
the JavaScript sense; a supplied falsy value (0, or false for hasRings)
falls back to the default, which coincides with the supplied value only
for orbitRadius (default 0) and hasRings (default false). -/
theorem planetConfig_defaults_amended (p : PlanetParams) :
    (p.radius = none → (PlanetConfig.ofParams p).radius = 1) ∧
    (∀ v, p.radius = some v → v ≠ 0 → (PlanetConfig.ofParams p).radius = v) ∧
    (p.color = none → (PlanetConfig.ofParams p).color = 0xffffff) ∧
    (∀ v, p.color = some v → v ≠ 0 → (PlanetConfig.ofParams p).color = v) ∧
    (p.atmosphereThickness = none →
      (PlanetConfig.ofParams p).atmosphereThickness = 0.1) ∧
    (∀ v, p.atmosphereThickness = some v → v ≠ 0 →
      (PlanetConfig.ofParams p).atmosphereThickness = v) ∧
    (p.atmosphereOpacity = none →
      (PlanetConfig.ofParams p).atmosphereOpacity = 0.2) ∧
    (∀ v, p.atmosphereOpacity = some v → v ≠ 0 →
      (PlanetConfig.ofParams p).atmosphereOpacity = v) ∧
    (p.orbitRadius = none → (PlanetConfig.ofParams p).orbitRadius = 0) ∧
    (∀ v, p.orbitRadius = some v → (PlanetConfig.ofParams p).orbitRadius = v) ∧
    (p.rotationSpeed = none → (PlanetConfig.ofParams p).rotationSpeed = 0.005) ∧
    (∀ v, p.rotationSpeed = some v → v ≠ 0 →
      (PlanetConfig.ofParams p).rotationSpeed = v) ∧
    (p.orbitSpeed = none → (PlanetConfig.ofParams p).orbitSpeed = 0.001) ∧
    (∀ v, p.orbitSpeed = some v → v ≠ 0 →
      (PlanetConfig.ofParams p).orbitSpeed = v) ∧
    (p.hasRings = none → (PlanetConfig.ofParams p).hasRings = false) ∧
    (∀ b, p.hasRings = some b → (PlanetConfig.ofParams p).hasRings = b) ∧
    (p.ringColor = none → (PlanetConfig.ofParams p).ringColor = 0xffffff) ∧
    (∀ v, p.ringColor = some v → v ≠ 0 →
      (PlanetConfig.ofParams p).ringColor = v) := by
  refine ⟨fun h => by simp [PlanetConfig.ofParams, h, jsOrR],
    fun v hv hne => by simp [PlanetConfig.ofParams, hv, jsOrR, hne],
    fun h => by simp [PlanetConfig.ofParams, h, jsOrN],
    fun v hv hne => by simp [PlanetConfig.ofParams, hv, jsOrN, hne],
    fun h => by simp [PlanetConfig.ofParams, h, jsOrR],
    fun v hv hne => by simp [PlanetConfig.ofParams, hv, jsOrR, hne],
    fun h => by simp [PlanetConfig.ofParams, h, jsOrR],
    fun v hv hne => by simp [PlanetConfig.ofParams, hv, jsOrR, hne],
    fun h => by simp [PlanetConfig.ofParams, h, jsOrR],
    fun v hv => ?_,
    fun h => by simp [PlanetConfig.ofParams, h, jsOrR],
    fun v hv hne => by simp [PlanetConfig.ofParams, hv, jsOrR, hne],
    fun h => by simp [PlanetConfig.ofParams, h, jsOrR],
    fun v hv hne => by simp [PlanetConfig.ofParams, hv, jsOrR, hne],
    fun h => by simp [PlanetConfig.ofParams, h, jsOrB],
    fun b hb => by cases b <;> simp [PlanetConfig.ofParams, hb, jsOrB],
    fun h => by simp [PlanetConfig.ofParams, h, jsOrN],
    fun v hv hne => by simp [PlanetConfig.ofParams, hv, jsOrN, hne]⟩
  rcases eq_or_ne v 0 with h0 | h0 <;>
    simp [PlanetConfig.ofParams, hv, jsOrR, h0]

/-- Witness for the amended C2 at a concrete input: radius supplied as 2
is kept, omitted color falls back to white. -/
theorem planetConfig_defaults_amended_witness :
    (PlanetConfig.ofParams paramsRadius2).radius = 2 ∧
    (PlanetConfig.ofParams paramsRadius2).color = 0xffffff := by
  have h := planetConfig_defaults_amended paramsRadius2
  exact ⟨h.2.1 2 rfl (by norm_num), h.2.2.1 rfl⟩

/-- Counterexample to C4 as stated: color 0x000000 (black) is falsy, so
with atmosphereColor omitted and color = 0 supplied, the constructed
atmosphereColor is white, not the given color. -/
theorem atmosphereColor_black_counterexample :
    paramsBlack.atmosphereColor = none ∧ paramsBlack.color = some 0 ∧
    (PlanetConfig.ofParams paramsBlack).atmosphereColor = 0xffffff ∧
    (0xffffff : ℕ) ≠ 0 := by
  refine ⟨rfl, rfl, ?_, by norm_num⟩
  show jsOrN none (jsOrN (some 0) 0xffffff) = 0xffffff
  rfl

/-- Claim C4 amended: with atmosphereColor omitted and a nonzero color
supplied, the constructed atmosphereColor equals the supplied color; a
supplied color of 0 (black) instead yields white. -/
theorem atmosphereColor_inherits_color (p : PlanetParams) (c : ℕ)
    (h1 : p.atmosphereColor = none) (h2 : p.color = some c) (h3 : c ≠ 0) :
    (PlanetConfig.ofParams p).atmosphereColor = c := by
  simp [PlanetConfig.ofParams, h1, h2, jsOrN, h3]

/-- Witness for the amended C4 at a concrete input. -/
theorem atmosphereColor_inherits_color_witness :
    (PlanetConfig.ofParams paramsBlue).atmosphereColor = 0x2233ff :=
  atmosphereColor_inherits_color paramsBlue 0x2233ff rfl rfl (by norm_num)

theorem hasAtmosphereAt_createPlanet (s : SolarSystem) (k : String)
    (cfg : PlanetConfig) :
    hasAtmosphereAt (s.createPlanet k cfg) k =
      some (decide (0 < cfg.atmosphereOpacity)) := by
  simp [hasAtmosphereAt, SolarSystem.createPlanet, mapGet_mapSet_self, mkEntry]

/-- Counterexample to C5 as stated: a config constructed with supplied
atmosphereOpacity = 0 receives the default 0.2 through the logical-or
defaulting, and createPlanet does attach an atmosphere shell. -/
theorem atmosphere_attached_despite_zero_opacity :
    paramsOpacity0.atmosphereOpacity = some 0 ∧
    hasAtmosphereAt
      (SolarSystem.init.createPlanet "venus" (PlanetConfig.ofParams paramsOpacity0))
      "venus" = some true := by
  refine ⟨rfl, ?_⟩
  have h1 : (PlanetConfig.ofParams paramsOpacity0).atmosphereOpacity = 0.2 :=
    jsOrR_some_zero _
  rw [hasAtmosphereAt_createPlanet, h1]
  have h2 : decide ((0 : ℝ) < 0.2) = true := by
    rw [decide_eq_true_eq]; norm_num
  rw [h2]

/-- Claim C5 amended: a supplied opacity of exactly 0 is overridden by the
default 0.2 and the atmosphere is rendered; through the constructor,
suppression requires a negative supplied opacity, in which case
createPlanet attaches no atmosphere shell. -/
theorem atmosphere_suppressed_for_negative_opacity (p : PlanetParams)
    (v : ℝ) (hv : p.atmosphereOpacity = some v) (hneg : v < 0)
    (s : SolarSystem) (k : String) :
    hasAtmosphereAt (s.createPlanet k (PlanetConfig.ofParams p)) k =
      some false := by
  have h1 : (PlanetConfig.ofParams p).atmosphereOpacity = v := by
    simp [PlanetConfig.ofParams, hv, jsOrR, ne_of_lt hneg]
  rw [hasAtmosphereAt_createPlanet, h1]
  have h2 : decide ((0 : ℝ) < v) = false := by
    rw [decide_eq_false_iff_not]
    exact not_lt.mpr (le_of_lt hneg)
  rw [h2]

/-- Witness for the amended C5 at a concrete input: supplied opacity -1. -/
theorem atmosphere_suppressed_for_negative_opacity_witness :
    hasAtmosphereAt
      (SolarSystem.init.createPlanet "pluto" (PlanetConfig.ofParams paramsOpacityNeg))
      "pluto" = some false :=
  atmosphere_suppressed_for_negative_opacity paramsOpacityNeg (-1) rfl
    (by norm_num) SolarSystem.init "pluto"

/-- Witness for C3 at a concrete input: the earth entry, one repeated time
and a list of three times. -/
theorem updatePlanets_idem_pos_accum_rot_witness :
    positionAt ((earthSys.updatePlanets 2).updatePlanets 2) "earth" =
      positionAt (earthSys.updatePlanets 2) "earth" ∧
    rotationYAt ([1, 2, 3].foldl SolarSystem.updatePlanets earthSys) "earth" =
      some (3 * earthCfg.rotationSpeed) := by
  have h := updatePlanets_idem_pos_accum_rot earthSys 2 [1, 2, 3] "earth"
    (mkEntry earthCfg) (mapGet_mapSet_self _ _ _)
  refine ⟨h.1, ?_⟩
  rw [h.2]
  norm_num [mkEntry]

/-- Claim C6: on a registry satisfying the Map invariant (at most one
entry per name), calling createPlanet twice under the same name leaves
exactly one entry retrievable under that name, the one of the second
call. -/
theorem createPlanet_duplicate_overwrites (s : SolarSystem) (k : String)
    (c1 c2 : PlanetConfig) (h : countKey s.planets k ≤ 1) :
    configAt ((s.createPlanet k c1).createPlanet k c2) k = some c2 ∧
    countKey ((s.createPlanet k c1).createPlanet k c2).planets k = 1 := by
  constructor
  · simp [configAt, SolarSystem.createPlanet, mapGet_mapSet_self, mkEntry]
  · simp only [SolarSystem.createPlanet, countKey_mapSet]
    rw [max_eq_left h, max_self]

/-- Witness for C6 at a concrete input: register mars twice on the empty
system. -/
theorem createPlanet_duplicate_overwrites_witness :
    configAt ((SolarSystem.init.createPlanet "mars" earthCfg).createPlanet
        "mars" (PlanetConfig.ofParams paramsRadius2)) "mars" =
      some (PlanetConfig.ofParams paramsRadius2) ∧
    countKey ((SolarSystem.init.createPlanet "mars" earthCfg).createPlanet
        "mars" (PlanetConfig.ofParams paramsRadius2)).planets "mars" = 1 :=
  createPlanet_duplicate_overwrites SolarSystem.init "mars" earthCfg
    (PlanetConfig.ofParams paramsRadius2) (by simp [countKey, SolarSystem.init])

/-- Claim C8: updatePlanets rewrites only per-body transform state and the
sun rotation: the list of registered names is unchanged, and every entry
keeps its config, its y coordinate, its atmosphere flag and its ring
geometry. -/
theorem updatePlanets_frame (s : SolarSystem) (t : ℝ) :
    (s.updatePlanets t).planets.map Prod.fst = s.planets.map Prod.fst ∧
    ∀ k p, mapGet s.planets k = some p →
      ∃ q, mapGet (s.updatePlanets t).planets k = some q ∧
        q.config = p.config ∧ q.position.y = p.position.y ∧
        q.hasAtmosphere = p.hasAtmosphere ∧ q.rings = p.rings := by
  constructor
  · simp [SolarSystem.updatePlanets, List.map_map, Function.comp]
  · intro k p hp
    exact ⟨updateEntry t p, by simp [mapGet_updatePlanets, hp], rfl, rfl, rfl, rfl⟩

/-- Witness for C8 at a concrete input: the earth system at time 5. -/
theorem updatePlanets_frame_witness :
    (earthSys.updatePlanets 5).planets.map Prod.fst =
      earthSys.planets.map Prod.fst ∧
    ∃ q, mapGet (earthSys.updatePlanets 5).planets "earth" = some q ∧
      q.config = (mkEntry earthCfg).config ∧
      q.position.y = (mkEntry earthCfg).position.y ∧
      q.hasAtmosphere = (mkEntry earthCfg).hasAtmosphere ∧
      q.rings = (mkEntry earthCfg).rings := by
  have h := updatePlanets_frame earthSys 5
  exact ⟨h.1, h.2 "earth" (mkEntry earthCfg) (mapGet_mapSet_self _ _ _)⟩

/-- Claim C9: with autoRotate false, a run of any number of consecutive
ticks never calls updatePlanets and leaves the whole solar-system state,
hence every position and rotation, exactly as it was. -/
theorem tick_autoRotate_false (prm : Parameters) (h : prm.autoRotate = false)
    (nows : List ℝ) (s : SolarSystem) :
    nows.foldl (fun st now => tick prm now st) s = s := by
  induction nows generalizing s with
  | nil => rfl
  | cons n rest ih =>
      rw [List.foldl_cons, show tick prm n s = s from by simp [tick, h]]
      exact ih s

/-- Witness for C9 at a concrete input: three frames with autoRotate off
leave the earth system unchanged. -/
theorem tick_autoRotate_false_witness :
    [1, 2, 3].foldl (fun st now => tick ⟨false, 1⟩ now st) earthSys =
      earthSys :=
  tick_autoRotate_false ⟨false, 1⟩ rfl [1, 2, 3] earthSys

/-- Claim C10: ringInnerRadius and ringOuterRadius get no default: omitted
in the parameters, they stay absent in the constructed config, and
createPlanet with hasRings true still registers the body with ring
geometry built from the absent radii instead of rejecting the config. -/
theorem ring_radii_no_default (p : PlanetParams)
    (h1 : p.ringInnerRadius = none) (h2 : p.ringOuterRadius = none)
    (s : SolarSystem) (k : String) :
    (PlanetConfig.ofParams p).ringInnerRadius = none ∧
    (PlanetConfig.ofParams p).ringOuterRadius = none ∧
    ((PlanetConfig.ofParams p).hasRings = true →
      ringsAt (s.createPlanet k (PlanetConfig.ofParams p)) k =
        some (some ⟨none, none, (PlanetConfig.ofParams p).ringColor⟩)) := by
  refine ⟨by simp [PlanetConfig.ofParams, h1],
    by simp [PlanetConfig.ofParams, h2], fun hr => ?_⟩
  have hr2 : jsOrB p.hasRings false = true := hr
  simp [ringsAt, SolarSystem.createPlanet, mapGet_mapSet_self, mkEntry, hr2,
    PlanetConfig.ofParams, h1, h2]

/-- Witness for C10 at a concrete input: hasRings supplied true, both ring
radii omitted. -/
theorem ring_radii_no_default_witness :
    (PlanetConfig.ofParams paramsRingsOnly).ringInnerRadius = none ∧
    (PlanetConfig.ofParams paramsRingsOnly).ringOuterRadius = none ∧
    ringsAt (SolarSystem.init.createPlanet "saturn"
        (PlanetConfig.ofParams paramsRingsOnly)) "saturn" =
      some (some ⟨none, none, 0xffffff⟩) := by
  have h := ring_radii_no_default paramsRingsOnly rfl rfl SolarSystem.init
    "saturn"
  exact ⟨h.1, h.2.1, h.2.2 rfl⟩

end

end SolarSpec
